import Mathlib

/-!
# Verification of the loki storage server core against its specification

Shallow embedding of the request-handling, onion-processing, swarm-mapping
and channel-encryption code of the storage server, together with theorems
settling the specification claims.  Each definition is translated from the
named C++ source location; external library calls (libsodium, openssl,
nlohmann::json parsing) appear as explicit parameters or as faithful models
of their documented behaviour.
-/

namespace Oxen

/-! ## JSON value model (nlohmann::json)

We model JSON values structurally.  `find` on a non-object returns `none`,
matching `nlohmann::json::find` which returns `end()` on non-object values.
Typed accessors return `none` where the C++ `get_ref`/`get` would throw a
`type_error`. -/

inductive JVal where
  | jnull
  | jbool (b : Bool)
  | jnum (n : Int)
  | jstr (s : String)
  | jarr (elems : List JVal)
  | jobj (fields : List (String × JVal))

/-- `json::find(key)`: first binding of `key`, `none` for non-objects. -/
def JVal.find : JVal → String → Option JVal
  | .jobj fields, key => fields.lookup key
  | _, _ => none

/-- `json::contains(key)` / `json::count(key) != 0`. -/
def JVal.containsKey (j : JVal) (key : String) : Bool :=
  (j.find key).isSome

/-- `get_ref<const std::string&>()`: `some` only on strings (otherwise the
C++ call throws `type_error`). -/
def JVal.getStr : JVal → Option String
  | .jstr s => some s
  | _ => none

/-- `get<bool>()`: `some` only on booleans. -/
def JVal.getBool : JVal → Option Bool
  | .jbool b => some b
  | _ => none

/-- `is_string()` check used before `get_ref`. -/
def JVal.isString : JVal → Bool
  | .jstr _ => true
  | _ => false

/-- `is_object()` check. -/
def JVal.isObject : JVal → Bool
  | .jobj _ => true
  | _ => false

/-! ## HTTP response model (`oxen::Response`) -/

inductive ContentType where
  | plaintext
  | json
deriving DecidableEq, Repr

/-- Status codes used by the handlers, by their numeric value. -/
def OK : Nat := 200
def BAD_REQUEST : Nat := 400
def FORBIDDEN : Nat := 403
def NOT_ACCEPTABLE : Nat := 406
def MISDIRECTED_REQUEST : Nat := 421
def INTERNAL_SERVER_ERROR : Nat := 500
def SERVICE_UNAVAILABLE : Nat := 503

structure Response where
  status : Nat
  body : String
  contentType : ContentType := .plaintext
deriving DecidableEq, Repr

/-! ## C3: `RequestHandler::process_oxend_request` (request_handler.cpp:187-235)

The allow-list is declared as
`std::unordered_set{"get_service_nodes", "ons_resolve"}`, which by class
template argument deduction is a `std::unordered_set<const char*>`: a set of
*pointers*, hashed and compared by address.  The lookup
`allowed_endpoints.count(endpoint_str.c_str())` therefore compares the
address of the `std::string`'s buffer with the addresses of the two string
literals.  We model a C string as an (address, contents) pair and the set
lookup as address equality, exactly the `const char*` semantics. -/

structure CStr where
  addr : Nat
  content : String
deriving DecidableEq, Repr

/-- `std::unordered_set<const char*>::count`: pointer (address) equality. -/
def cstrSetCount (set : List CStr) (q : CStr) : Nat :=
  (set.filter (fun e => e.addr == q.addr)).length

/-- Outcome of `process_oxend_request`: either `cb` is invoked with an error
response, or the request is forwarded to the daemon via
`omq_server().oxend_request(rpc_endpoint, ..., oxend_params.dump())`. -/
inductive OxendOutcome where
  | reply (r : Response)
  | forward (rpc_endpoint : String) (oxend_params : JVal)

/-- `RequestHandler::process_oxend_request` (request_handler.cpp:187-235).
`litGSN`/`litONS` are the addresses of the two string literals backing the
allow-list, `endpointAddr` the address of `endpoint_str.c_str()` (which, as
a `std::string` buffer, is a distinct object from every string literal). -/
def process_oxend_request (litGSN litONS : Nat) (params : JVal)
    (endpointAddr : Nat) : OxendOutcome :=
  let allowed_endpoints : List CStr :=
    [⟨litGSN, "get_service_nodes"⟩, ⟨litONS, "ons_resolve"⟩]
  match params.find "endpoint" with
  | none => .reply ⟨BAD_REQUEST, "missing \x27endpoint\x27", .plaintext⟩
  | some e =>
    if !e.isString then
      .reply ⟨BAD_REQUEST, "missing \x27endpoint\x27", .plaintext⟩
    else
      let endpoint_str := (e.getStr).getD ""
      if cstrSetCount allowed_endpoints ⟨endpointAddr, endpoint_str⟩ == 0 then
        .reply ⟨BAD_REQUEST, "Endpoint not allowed: " ++ endpoint_str, .plaintext⟩
      else
        match params.find "oxend_params" with
        | some (.jobj kvs) => .forward ("rpc." ++ endpoint_str) (.jobj kvs)
        | _ => .reply ⟨BAD_REQUEST, "missing \x27oxend_params\x27", .plaintext⟩

/-! ## C10: `ChannelEncryption::decrypt_gcm` (channel_encryption.cpp:164-196)

Length handling: the 12-byte nonce is split off the front
(`substr(0, 12)` / `remove_prefix`), then the output buffer is resized to
`ciphertext.size() - crypto_aead_aes256gcm_ABYTES` where both operands are
`size_t`: the subtraction wraps modulo 2^64 when fewer than 16 bytes remain.
`std::string::resize` then throws `length_error` because the wrapped value
exceeds `max_size()` (which is below 2^63 on every platform).  The AEAD
verification itself (libsodium `crypto_aead_aes256gcm_decrypt`) is abstracted
as `verify`. -/

def U64MOD : Nat := 2 ^ 64

/-- 64-bit `size_t` subtraction `a - b` (wraps modulo 2^64); `b ≤ 2^64`. -/
def u64sub (a b : Nat) : Nat :=
  (a + (U64MOD - b)) % U64MOD

/-- The value `ciphertext.size() - crypto_aead_aes256gcm_ABYTES` computed at
channel_encryption.cpp:177 for an input of `ct_len` bytes, after the
12-byte nonce was removed (`ct_len - 12` is the post-nonce remainder, 0 when
the input is shorter than the nonce). -/
def gcm_out_len (ct_len : Nat) : Nat :=
  u64sub (ct_len - 12) 16

inductive GcmError where
  | resizeLengthError
  | badTag
deriving DecidableEq, Repr

/-- `ChannelEncryption::decrypt_gcm` (channel_encryption.cpp:164-196),
modelling the length manipulation exactly; `max_size` is
`std::string::max_size()` and `verify` the libsodium AEAD open call for the
derived key (returns `none` on authentication failure, and always fails when
fewer than 16 (tag-size) bytes of ciphertext are supplied). -/
def decrypt_gcm (max_size : Nat) (verify : List Nat → List Nat → Option (List Nat))
    (ct : List Nat) : Except GcmError (List Nat) :=
  let nonce := ct.take 12
  let remaining := ct.drop 12
  let outLen := u64sub remaining.length 16
  if outLen > max_size then
    .error .resizeLengthError
  else
    match verify nonce remaining with
    | some plaintext => .ok plaintext
    | none => .error .badTag

/-! ## Base64 (oxenmq::to_base64) and JSON serialisation (nlohmann dump) -/

def b64digit (i : Nat) : Char :=
  ("ABCDEFGHIJKLMNOPQRSTUVWXYZabcdefghijklmnopqrstuvwxyz0123456789+/".toList).getD i 'A'

/-- RFC 4648 base64 encoding of a byte list, with padding. -/
def base64encode : List Nat → String
  | [] => ""
  | [a] =>
    String.mk [b64digit (a / 4), b64digit (a % 4 * 16)] ++ "=="
  | [a, b] =>
    String.mk [b64digit (a / 4), b64digit (a % 4 * 16 + b / 16),
               b64digit (b % 16 * 4)] ++ "="
  | a :: b :: c :: rest =>
    String.mk [b64digit (a / 4), b64digit (a % 4 * 16 + b / 16),
               b64digit (b % 16 * 4 + c / 64), b64digit (c % 64)] ++
    base64encode rest

/-- nlohmann string escaping (dump): quote, backslash and the common control
characters; other characters pass through. -/
def jsonEscapeChar (c : Char) : String :=
  if c = '\"' then "\\\""
  else if c = '\\' then "\\\\"
  else if c = '\n' then "\\n"
  else if c = '\t' then "\\t"
  else if c = '\x0d' then "\\r"
  else String.singleton c

def jsonEscape (s : String) : String :=
  s.toList.foldl (fun acc c => acc ++ jsonEscapeChar c) ""

/-- Byte-wise lexicographic comparison, as used by `std::map<std::string>`
(`std::less<std::string>` compares character values). -/
def charListLt : List Char → List Char → Bool
  | [], [] => false
  | [], _ :: _ => true
  | _ :: _, [] => false
  | a :: as, b :: bs =>
    if a.toNat < b.toNat then true
    else if b.toNat < a.toNat then false
    else charListLt as bs

def strLt (a b : String) : Bool :=
  charListLt a.toList b.toList

/-- `json[key] = value` on an object, modelling `nlohmann::json`'s `std::map`
storage: keys are kept sorted, assignment to an existing key overwrites. -/
def mapInsert (k : String) (v : JVal) : List (String × JVal) → List (String × JVal)
  | [] => [(k, v)]
  | (k2, v2) :: gs =>
    if strLt k k2 then (k, v) :: (k2, v2) :: gs
    else if k = k2 then (k, v) :: gs
    else (k2, v2) :: mapInsert k v gs

mutual

/-- `nlohmann::json::dump()` (no indentation). -/
def dumps : JVal → String
  | .jnull => "null"
  | .jbool true => "true"
  | .jbool false => "false"
  | .jnum n => toString n
  | .jstr s => "\"" ++ jsonEscape s ++ "\""
  | .jarr xs => "[" ++ dumpList xs ++ "]"
  | .jobj fs => "\x7b" ++ dumpFields fs ++ "\x7d"
termination_by structural j => j

def dumpList : List JVal → String
  | [] => ""
  | [x] => dumps x
  | x :: y :: xs => dumps x ++ "," ++ dumpList (y :: xs)
termination_by structural l => l

def dumpFields : List (String × JVal) → String
  | [] => ""
  | [(k, v)] => "\"" ++ jsonEscape k ++ "\":" ++ dumps v
  | (k, v) :: g :: gs =>
    "\"" ++ jsonEscape k ++ "\":" ++ dumps v ++ "," ++ dumpFields (g :: gs)
termination_by structural l => l

end

/-! ## C1: `RequestHandler::wrap_proxy_response` (request_handler.cpp:421-438)

The C++ body is:
```
nlohmann::json json_res;
json_res["status"] = res.status();
json_res["body"] = res.message();
const std::string res_body = json_res.dump();
std::string ciphertext;
channel_cipher_.encrypt(enc_type, res_body, client_key);
ciphertext = oxenmq::to_base64(ciphertext);
return Response[Status::OK, std::move(ciphertext), ContentType::json];
```
Note that the return value of `encrypt` is discarded: `ciphertext` is still
the default-constructed empty string when it is base64-encoded.  `encrypt`
stands for `channel_cipher_.encrypt(enc_type, ., client_key)`. -/

def wrap_proxy_response (encrypt : String → List Nat) (res : Response) : Response :=
  let json_res := JVal.jobj
    (mapInsert "body" (.jstr res.body) (mapInsert "status" (.jnum res.status) []))
  let res_body := dumps json_res
  let ciphertext : List Nat := []
  let _ := encrypt res_body
  let ciphertext_b64 := base64encode ciphertext
  ⟨OK, ciphertext_b64, .json⟩

/-! ## C2: `ChannelEncryption::encrypt` / `decrypt` dispatch
(channel_encryption.cpp:74-88)

Modelled from the spec: the `EncryptType` enumeration lives in
`channel_encryption.hpp`, which is not part of the sources; spec §3
(`OnionMeta`) and §4.1 give its values as `aes_gcm | aes_cbc | xchacha20`.
The dispatching `switch` in the source handles only `aes_gcm` and `aes_cbc`
and falls through to `throw std::runtime_error("Invalid encryption type")`
for every other tag, although `encrypt_xchacha20` / `decrypt_xchacha20`
(channel_encryption.cpp:263-317) are fully implemented.  The per-scheme
primitives (openssl / libsodium calls under this node's key) are abstracted
as `CipherPrimitives`. -/

inductive EncryptType where
  | aes_gcm
  | aes_cbc
  | xchacha20
deriving DecidableEq, Repr

inductive CryptoErr where
  | invalidEncryptionType
  | badCiphertext
deriving DecidableEq, Repr

structure CipherPrimitives where
  encrypt_gcm : List Nat → List Nat
  encrypt_cbc : List Nat → List Nat
  encrypt_xchacha20 : List Nat → List Nat
  decrypt_gcm : List Nat → Except CryptoErr (List Nat)
  decrypt_cbc : List Nat → Except CryptoErr (List Nat)
  decrypt_xchacha20 : List Nat → Except CryptoErr (List Nat)

/-- `ChannelEncryption::encrypt` (channel_encryption.cpp:74-80). -/
def ChannelEncryption.encrypt (prims : CipherPrimitives) :
    EncryptType → List Nat → Except CryptoErr (List Nat)
  | .aes_gcm, p => .ok (prims.encrypt_gcm p)
  | .aes_cbc, p => .ok (prims.encrypt_cbc p)
  | .xchacha20, _ => .error .invalidEncryptionType

/-- `ChannelEncryption::decrypt` (channel_encryption.cpp:82-88). -/
def ChannelEncryption.decrypt (prims : CipherPrimitives) :
    EncryptType → List Nat → Except CryptoErr (List Nat)
  | .aes_gcm, c => prims.decrypt_gcm c
  | .aes_cbc, c => prims.decrypt_cbc c
  | .xchacha20, _ => .error .invalidEncryptionType

/-! ## Swarm data model (swarm.cpp) -/

structure SnRecord where
  ip : String
  port : Nat
  lmq_port : Nat
  pubkey_legacy : String
  pubkey_ed25519 : String
  pubkey_x25519 : String
deriving DecidableEq, Repr

/-- `operator==` on `sn_record_t`.  Modelled from the spec: the operator is
declared in a header that is not part of the sources; spec §3 states the
invariant that two snodes with equal `pubkey_legacy` are equal. -/
def snEq (a b : SnRecord) : Bool :=
  a.pubkey_legacy == b.pubkey_legacy

structure SwarmInfo where
  swarm_id : Nat
  snodes : List SnRecord
deriving DecidableEq, Repr

/-- `INVALID_SWARM_ID = UINT64_MAX`, the "not assigned" sentinel. -/
def INVALID_SWARM_ID : Nat := U64MOD - 1

/-! ## C4: `hex_to_u64` (swarm.cpp:272-290) and `get_swarm_by_pk`
(swarm.cpp:298-356) -/

/-- `strtoull(buf, nullptr, 16)` on a hex chunk: parses the longest prefix
of hex digits (case-insensitive), 0 if there is none. -/
def hexDigitVal (c : Char) : Option Nat :=
  if '0' ≤ c ∧ c ≤ '9' then some (c.toNat - 48)
  else if 'a' ≤ c ∧ c ≤ 'f' then some (c.toNat - 87)
  else if 'A' ≤ c ∧ c ≤ 'F' then some (c.toNat - 55)
  else none

def strtoull16 : List Char → Nat → Nat
  | [], acc => acc
  | c :: cs, acc =>
    match hexDigitVal c with
    | some d => strtoull16 cs (acc * 16 + d)
    | none => acc

/-- The loop of `hex_to_u64`: consume 16 hex characters at a time and XOR
the parsed 64-bit words together.  `fuel` only bounds the recursion (every
iteration removes at least one character, so `fuel = cs.length` is enough)
and keeps the definition structurally recursive. -/
def hex_to_u64_loop : Nat → List Char → Nat → Nat
  | _, [], res => res
  | 0, _, res => res
  | fuel + 1, c :: cs, res =>
    hex_to_u64_loop fuel ((c :: cs).drop 16) (res ^^^ strtoull16 ((c :: cs).take 16) 0)

/-- `hex_to_u64` (swarm.cpp:272-290): skip the 2-character network tag and
fold the rest, 16 hex characters (one big-endian u64) at a time, with XOR. -/
def hex_to_u64 (pk : String) : Nat :=
  hex_to_u64_loop pk.toList.length (pk.toList.drop 2) 0

/-- The running state of the loop at swarm.cpp:314-337:
`(cur_best, cur_min, leftmost_id, rightmost_id)`. -/
structure SwarmLoopSt where
  cur_best : Nat
  cur_min : Nat
  leftmost : Nat
  rightmost : Nat
deriving DecidableEq, Repr

/-- One iteration of the loop body (swarm.cpp:314-337): `continue` on the
INVALID sentinel, otherwise update the four loop variables (each update
tests only variables the other updates do not touch). -/
def swarmLoopStep (res : Nat) (st : SwarmLoopSt) (si : SwarmInfo) : SwarmLoopSt :=
  if si.swarm_id = INVALID_SWARM_ID then st
  else
    let dist := if si.swarm_id > res then si.swarm_id - res else res - si.swarm_id
    { cur_best := if dist < st.cur_min then si.swarm_id else st.cur_best,
      cur_min := if dist < st.cur_min then dist else st.cur_min,
      leftmost := if si.swarm_id < st.leftmost then si.swarm_id else st.leftmost,
      rightmost := if si.swarm_id > st.rightmost then si.swarm_id else st.rightmost }

def swarmLoop (res : Nat) : List SwarmInfo → SwarmLoopSt → SwarmLoopSt
  | [], st => st
  | si :: rest, st => swarmLoop res rest (swarmLoopStep res st si)

/-- The body of `get_swarm_by_pk` (swarm.cpp:298-356) after `res` has been
computed.  All arithmetic is `uint64_t`: `MAX_ID - res` wraps when
`res = 2^64 - 1` and both wrap-around distance computations are reduced
modulo 2^64. -/
def get_swarm_by_pk_core (all_swarms : List SwarmInfo) (res : Nat) : Nat :=
  let MAX_ID := INVALID_SWARM_ID - 1
  let st := swarmLoop res all_swarms
    ⟨INVALID_SWARM_ID, INVALID_SWARM_ID, INVALID_SWARM_ID, 0⟩
  if res > st.rightmost then
    let dist := (u64sub MAX_ID res + st.leftmost) % U64MOD
    if dist < st.cur_min then st.leftmost else st.cur_best
  else if res < st.leftmost then
    let dist := (res + (MAX_ID - st.rightmost)) % U64MOD
    if dist < st.cur_min then st.rightmost else st.cur_best
  else st.cur_best

/-- `get_swarm_by_pk` (swarm.cpp:298-356): `res = hex_to_u64(pk)` followed
by the candidate search. -/
def get_swarm_by_pk (all_swarms : List SwarmInfo) (pk : String) : Nat :=
  get_swarm_by_pk_core all_swarms (hex_to_u64 pk)

/-! ## C7: `Swarm::derive_swarm_events` (swarm.cpp:53-119) -/

structure SwarmEvents where
  our_swarm_id : Nat := 0
  our_swarm_members : List SnRecord := []
  new_snodes : List SnRecord := []
  new_swarms : List Nat := []
  dissolved : Bool := false
deriving DecidableEq, Repr

/-- `swarm_exists` (swarm.cpp:15-23). -/
def swarm_exists (all_swarms : List SwarmInfo) (swarm : Nat) : Bool :=
  all_swarms.any (fun si => si.swarm_id == swarm)

/-- `Swarm::is_existing_swarm` (swarm.cpp:45-51), over the previously known
roster `all_valid_swarms_`. -/
def is_existing_swarm (all_valid_swarms : List SwarmInfo) (sid : Nat) : Bool :=
  all_valid_swarms.any (fun si => si.swarm_id == sid)

/-- `Swarm::derive_swarm_events` (swarm.cpp:53-119).  The member fields
`our_address_`, `cur_swarm_id_`, `swarm_peers_` and `all_valid_swarms_` are
passed explicitly. -/
def derive_swarm_events (our_address : SnRecord) (cur_swarm_id : Nat)
    (swarm_peers : List SnRecord) (all_valid_swarms : List SwarmInfo)
    (swarms : List SwarmInfo) : SwarmEvents :=
  match swarms.find? (fun si => si.snodes.any (fun sn => snEq sn our_address)) with
  | none => { our_swarm_id := INVALID_SWARM_ID }
  | some our_swarm =>
    let base : SwarmEvents :=
      { our_swarm_id := our_swarm.swarm_id, our_swarm_members := our_swarm.snodes }
    if cur_swarm_id = INVALID_SWARM_ID then base
    else if cur_swarm_id ≠ our_swarm.swarm_id then
      { base with dissolved := !swarm_exists swarms cur_swarm_id }
    else
      { base with
        new_snodes := our_swarm.snodes.filter
          (fun sn => !swarm_peers.any (fun p => snEq p sn) && !snEq sn our_address),
        new_swarms := (swarms.filter
          (fun si => !is_existing_swarm all_valid_swarms si.swarm_id)).map
            (fun si => si.swarm_id) }

/-! ## C5: `process_inner_request` (onion_processing.cpp:22-73)

The decrypted layer is parsed by `parse_combined_payload`
(onion_processing.cpp:202-234) and the resulting inner JSON is classified.
Every exception thrown inside the `try` block (a failed
`parse_combined_payload`, a missing `at(...)` key, an ill-typed `get`, a
`from_hex` or `parse_enc_type` failure) is caught at line 66 and collapsed
to `ProcessCiphertextError::INVALID_JSON`. -/

inductive ParsedInfo where
  | finalDest (body : String) (jsonFlag : Bool) (base64Flag : Bool)
  | relayToServer (payload : String) (host : String) (port : Nat)
      (protocol : String) (target : String)
  | relayToNode (ciphertext : String) (ephemeral_key : String)
      (enc_type : EncryptType) (next_node : String)
  | invalidCiphertext
  | invalidJson
deriving DecidableEq, Repr

/-- `parse_combined_payload` (onion_processing.cpp:202-234): 4-byte u32-LE
ciphertext length, ciphertext, then JSON (`jparse` abstracts
`nlohmann::json::parse`, `none` meaning it throws). -/
def parse_combined_payload (jparse : List Nat → Option JVal) (payload : List Nat) :
    Option (List Nat × JVal) :=
  if payload.length < 4 then none
  else
    let n := payload.getD 0 0 + payload.getD 1 0 * 256 +
             payload.getD 2 0 * 65536 + payload.getD 3 0 * 16777216
    let rest := payload.drop 4
    if rest.length < n then none
    else
      match jparse (rest.drop n) with
      | some j => some (rest.take n, j)
      | none => none

/-- `get<uint16_t>` on a JSON value: numbers are truncated to 16 bits
(nlohmann performs no range check on integral `get`), anything else throws. -/
def JVal.getU16 : JVal → Option Nat
  | .jnum n => some ((n % 65536 + 65536) % 65536).toNat
  | _ => none

def isHexStr (s : String) : Bool :=
  s.toList.all (fun c => (hexDigitVal c).isSome)

/-- `ed25519_pubkey::from_hex` / `x25519_pubkey::from_hex`.  Modelled from
the spec: the key types live in headers outside the sources; spec §3 makes
them 32-byte keys whose string form is 64 hex characters (`none` = the C++
call throws). -/
def pubkey_from_hex (s : String) : Option String :=
  if s.length == 64 && isHexStr s then some s else none

/-- `parse_enc_type`.  Modelled from the spec: the variant used by
`onion_processing.cpp` is declared in `channel_encryption.hpp` (not in the
sources); spec §3/§4.1 admit the three tags, with the string spellings of
the TU-local copy at channel_encryption.cpp:34-38 for the AES modes. -/
def parse_enc_type (s : String) : Option EncryptType :=
  if s = "aes-gcm" || s = "gcm" then some .aes_gcm
  else if s = "aes-cbc" || s = "cbc" then some .aes_cbc
  else if s = "xchacha20" then some .xchacha20
  else none

/-- Optional boolean field: absent means the default member value, present
and non-boolean means `get<bool>` throws (`none`). -/
def getBoolOpt (j : JVal) (key : String) (dflt : Bool) : Option Bool :=
  match j.find key with
  | none => some dflt
  | some v => v.getBool

/-- `process_inner_request` (onion_processing.cpp:22-73).  `parsed` is the
result of `parse_combined_payload(plaintext)` (`none` = it threw);
`json_default`/`b64_default` are the member initialisers of
`FinalDestinationInfo` from the header (they do not affect classification). -/
def process_inner_request (json_default b64_default : Bool) (plaintext : String)
    (parsed : Option (String × JVal)) : ParsedInfo :=
  match parsed with
  | none => .invalidJson
  | some (ciphertext, inner_json) =>
    if inner_json.containsKey "headers" then
      match getBoolOpt inner_json "json" json_default,
            getBoolOpt inner_json "base64" b64_default with
      | some jf, some bf => .finalDest ciphertext jf bf
      | _, _ => .invalidJson
    else
      match inner_json.find "host" with
      | some hv =>
        match hv.getStr with
        | none => .invalidJson
        | some host =>
          match (inner_json.find "target").bind JVal.getStr with
          | none => .invalidJson
          | some target =>
            let port? : Option Nat :=
              match inner_json.find "port" with
              | none => some 443
              | some p => p.getU16
            let protocol? : Option String :=
              match inner_json.find "protocol" with
              | none => some "https"
              | some p => p.getStr
            match port?, protocol? with
            | some port, some protocol =>
              .relayToServer plaintext host port protocol target
            | _, _ => .invalidJson
      | none =>
        match ((inner_json.find "destination").bind JVal.getStr).bind pubkey_from_hex with
        | none => .invalidJson
        | some dest =>
          match ((inner_json.find "ephemeral_key").bind JVal.getStr).bind pubkey_from_hex with
          | none => .invalidJson
          | some eph =>
            let enc? : Option EncryptType :=
              match inner_json.find "enc_type" with
              | none => some .aes_gcm
              | some v => v.getStr.bind parse_enc_type
            match enc? with
            | some et => .relayToNode ciphertext eph et dest
            | none => .invalidJson

/-! ## C6: `RequestHandler::process_store` (request_handler.cpp:96-185),
`process_retrieve` (request_handler.cpp:293-358) and `handle_wrong_swarm`
(request_handler.cpp:70-80)

External collaborators are explicit: `ServiceNode::get_snodes_by_pk` and
the persistence layer live in service_node.cpp (not in the sources) and are
modelled from the spec; `util::parseTTL` / `util::parseTimestamp`
(utils.hpp) and `oxenmq::to_base32z` are abstracted as functions. -/

structure ServiceNodeState where
  cur_swarm_id : Nat
  all_valid_swarms : List SwarmInfo

/-- `Swarm::is_pubkey_for_us` (swarm.cpp:292-296). -/
def is_pubkey_for_us (st : ServiceNodeState) (pk : String) : Bool :=
  st.cur_swarm_id == get_swarm_by_pk st.all_valid_swarms pk

/-- Modelled from the spec: `ServiceNode::get_snodes_by_pk` is defined in
service_node.cpp, which is not among the sources.  Spec §4.3 and §8
(*Misdirected*): it returns the snode list of the swarm owning `pubKey`. -/
def get_snodes_by_pk (st : ServiceNodeState) (pk : String) : List SnRecord :=
  let sid := get_swarm_by_pk st.all_valid_swarms pk
  match st.all_valid_swarms.find? (fun si => si.swarm_id == sid) with
  | some si => si.snodes
  | none => []

/-- One snode entry of `snodes_to_json` (request_handler.cpp:41-59); keys in
`std::map` order; `b32z` abstracts `oxenmq::to_base32z` applied to the raw
legacy key whose hex form is stored here. -/
def snode_to_json (b32z : String → String) (sn : SnRecord) : JVal :=
  .jobj [("address", .jstr (b32z sn.pubkey_legacy ++ ".snode")),
         ("ip", .jstr sn.ip),
         ("port", .jstr (toString sn.port)),
         ("pubkey_ed25519", .jstr sn.pubkey_ed25519),
         ("pubkey_legacy", .jstr sn.pubkey_legacy),
         ("pubkey_x25519", .jstr sn.pubkey_x25519)]

/-- `snodes_to_json` (request_handler.cpp:41-59). -/
def snodes_to_json (b32z : String → String) (snodes : List SnRecord) : JVal :=
  .jobj [("snodes", .jarr (snodes.map (snode_to_json b32z)))]

/-- `RequestHandler::handle_wrong_swarm` (request_handler.cpp:70-80). -/
def handle_wrong_swarm (b32z : String → String) (st : ServiceNodeState)
    (pk : String) : Response :=
  ⟨MISDIRECTED_REQUEST, dumps (snodes_to_json b32z (get_snodes_by_pk st pk)), .json⟩

/-- Modelled from the spec: `user_pubkey_t::create` is defined outside the
sources.  Spec §3: a user pubkey's string form is 66 hex characters; the
handler's own error message ("Pubkey must be 66 characters long") checks the
length. -/
def user_pubkey_create_ok (s : String) : Bool :=
  s.length == 66

structure StorageItem where
  pub_key : String
  hash : String
  data : String
  ttl : Nat
  timestamp : Nat
deriving DecidableEq, Repr

/-- External collaborators of the request handler, passed explicitly:
TTL/timestamp validation from utils.hpp, the persistence layer results, the
base32z encoder, and the addresses entering `process_oxend_request`. -/
structure HandlerDeps where
  parseTTL : String → Option Nat
  parseTimestamp : String → Nat → Option Nat
  store_result : Except String Bool
  retrieve_result : Except String (List StorageItem)
  b32z : String → String
  litGSN : Nat
  litONS : Nat
  endpointAddr : Nat

/-- A handler outcome: a `Response` given to the caller together with
whether the persistence layer was invoked, or an exception escaping the
handler (an ill-typed `get_ref`/`get`). -/
inductive StoreOutcome where
  | resp (r : Response) (touched : Bool)
  | threw (what : String)
deriving DecidableEq, Repr

/-- `RequestHandler::process_store` (request_handler.cpp:96-185). -/
def process_store (deps : HandlerDeps) (st : ServiceNodeState)
    (params : JVal) : StoreOutcome :=
  if !params.containsKey "pubKey" then
    .resp ⟨BAD_REQUEST, "invalid json: no `pubKey` field\n", .plaintext⟩ false
  else if !params.containsKey "ttl" then
    .resp ⟨BAD_REQUEST, "invalid json: no `ttl` field\n", .plaintext⟩ false
  else if !params.containsKey "timestamp" then
    .resp ⟨BAD_REQUEST, "invalid json: no `timestamp` field\n", .plaintext⟩ false
  else if !params.containsKey "data" then
    .resp ⟨BAD_REQUEST, "invalid json: no `data` field\n", .plaintext⟩ false
  else
    match (params.find "ttl").bind JVal.getStr with
    | none => .threw "type_error: ttl is not a string"
    | some ttl =>
      match (params.find "timestamp").bind JVal.getStr with
      | none => .threw "type_error: timestamp is not a string"
      | some timestamp =>
        match (params.find "data").bind JVal.getStr with
        | none => .threw "type_error: data is not a string"
        | some data =>
          match (params.find "pubKey").bind JVal.getStr with
          | none => .threw "type_error: pubKey is not a string"
          | some pkstr =>
            if !user_pubkey_create_ok pkstr then
              .resp ⟨BAD_REQUEST, "Pubkey must be 66 characters long\n", .plaintext⟩ false
            else if data.length > 102400 then
              .resp ⟨BAD_REQUEST,
                "Message body exceeds maximum allowed length of 102400\n",
                .plaintext⟩ false
            else if !is_pubkey_for_us st pkstr then
              .resp (handle_wrong_swarm deps.b32z st pkstr) false
            else
              match deps.parseTTL ttl with
              | none => .resp ⟨FORBIDDEN, "Provided TTL is not valid.\n", .plaintext⟩ false
              | some ttlInt =>
                match deps.parseTimestamp timestamp ttlInt with
                | none => .resp ⟨NOT_ACCEPTABLE, "Timestamp error: check your clock\n",
                    .plaintext⟩ false
                | some _tsInt =>
                  match deps.store_result with
                  | .error e => .resp ⟨INTERNAL_SERVER_ERROR, e, .plaintext⟩ true
                  | .ok false => .resp ⟨SERVICE_UNAVAILABLE,
                      "Service node is initializing\n", .plaintext⟩ true
                  | .ok true => .resp
                      ⟨OK, dumps (.jobj [("difficulty", .jnum 1)]), .json⟩ true

/-- One `message` entry of the retrieve response (request_handler.cpp:346-353);
keys in `std::map` order. -/
def retrieve_item_json (it : StorageItem) : JVal :=
  .jobj [("data", .jstr it.data),
         ("expiration", .jnum (it.timestamp + it.ttl)),
         ("hash", .jstr it.hash)]

/-- `RequestHandler::process_retrieve` (request_handler.cpp:293-358). -/
def process_retrieve (deps : HandlerDeps) (st : ServiceNodeState)
    (params : JVal) : StoreOutcome :=
  if !params.containsKey "pubKey" then
    .resp ⟨BAD_REQUEST, "invalid json: no `pubKey` field", .plaintext⟩ false
  else if !params.containsKey "lastHash" then
    .resp ⟨BAD_REQUEST, "invalid json: no `lastHash` field", .plaintext⟩ false
  else
    match (params.find "pubKey").bind JVal.getStr with
    | none => .threw "type_error: pubKey is not a string"
    | some pkstr =>
      if !user_pubkey_create_ok pkstr then
        .resp ⟨BAD_REQUEST, "Pubkey must be 66 characters long\n", .plaintext⟩ false
      else if !is_pubkey_for_us st pkstr then
        .resp (handle_wrong_swarm deps.b32z st pkstr) false
      else
        match (params.find "lastHash").bind JVal.getStr with
        | none => .threw "type_error: lastHash is not a string"
        | some _last_hash =>
          match deps.retrieve_result with
          | .error e => .resp ⟨INTERNAL_SERVER_ERROR, e, .plaintext⟩ true
          | .ok items => .resp
              ⟨OK, dumps (.jobj [("messages", .jarr (items.map retrieve_item_json))]),
               .json⟩ true

/-- `RequestHandler::process_snodes_by_pk` (request_handler.cpp:263-291). -/
def process_snodes_by_pk (deps : HandlerDeps) (st : ServiceNodeState)
    (params : JVal) : StoreOutcome :=
  if !params.containsKey "pubKey" then
    .resp ⟨BAD_REQUEST, "invalid json: no `pubKey` field\n", .plaintext⟩ false
  else
    match (params.find "pubKey").bind JVal.getStr with
    | none => .threw "type_error: pubKey is not a string"
    | some pkstr =>
      if !user_pubkey_create_ok pkstr then
        .resp ⟨BAD_REQUEST, "Pubkey must be 66 characters long\n", .plaintext⟩ false
      else
        .resp ⟨OK, dumps (snodes_to_json deps.b32z (get_snodes_by_pk st pkstr)), .json⟩
          false

/-! ## C9: `RequestHandler::process_client_req` (request_handler.cpp:360-419)

The error paths invoke `cb(...)` but are missing `return` statements, so
control continues past them.  We record the visible sequence of events: each
invocation of `cb`, each point where the callback is moved into an
asynchronous continuation, each escaped exception, and each undefined
behaviour (dereference of an `end()` iterator).  `body = none` models
`json::parse` returning `value_t::discarded` (invalid JSON); `find` on a
discarded value returns `end()`. -/

inductive CbEvent where
  | cb (r : Response)
  | asyncCont (what : String)
  | threw (what : String)
  | ub (what : String)
deriving DecidableEq, Repr

def invalid_json_resp : Response :=
  ⟨BAD_REQUEST, "invalid json\n", .plaintext⟩

def no_method_resp : Response :=
  ⟨BAD_REQUEST, "invalid json: no `method` field\n", .plaintext⟩

def no_params_resp : Response :=
  ⟨BAD_REQUEST, "invalid json: no `params` field\n", .plaintext⟩

/-- The dispatch on `method_name` (request_handler.cpp:389-418) given the
JSON value `*params_it` points at (`none` = `params_it == end()`, whose
dereference is undefined behaviour). -/
def dispatch_method (deps : HandlerDeps) (st : ServiceNodeState)
    (method_name : String) (params : Option JVal) : List CbEvent :=
  if method_name = "store" then
    match params with
    | none => [.ub "dereferenced end iterator"]
    | some p =>
      match process_store deps st p with
      | .resp r _ => [.cb r]
      | .threw w => [.threw w]
  else if method_name = "retrieve" then
    match params with
    | none => [.ub "dereferenced end iterator"]
    | some p =>
      match process_retrieve deps st p with
      | .resp r _ => [.cb r]
      | .threw w => [.threw w]
  else if method_name = "get_snodes_for_pubkey" then
    match params with
    | none => [.ub "dereferenced end iterator"]
    | some p =>
      match process_snodes_by_pk deps st p with
      | .resp r _ => [.cb r]
      | .threw w => [.threw w]
  else if method_name = "oxend_request" then
    match params with
    | none => [.ub "dereferenced end iterator"]
    | some p =>
      match process_oxend_request deps.litGSN deps.litONS p deps.endpointAddr with
      | .reply r => [.cb r]
      | .forward ep _ => [.asyncCont ("oxend_request " ++ ep)]
  else if method_name = "get_lns_mapping" then
    match params with
    | none => [.ub "called find on end iterator"]
    | some p =>
      match p.find "name_hash" with
      | none => [.cb ⟨BAD_REQUEST, "Field <name_hash> is missing", .plaintext⟩]
      | some _ => [.asyncCont "lns_names_to_owners"]
  else
    [.cb ⟨BAD_REQUEST, "no method " ++ method_name, .plaintext⟩]

/-- `RequestHandler::process_client_req` (request_handler.cpp:360-419),
with the missing `return` statements of the source reproduced faithfully:
each error `cb` is followed by the continued execution of the function. -/
def process_client_req (deps : HandlerDeps) (st : ServiceNodeState)
    (body : Option JVal) : List CbEvent :=
  let ev0 : List CbEvent :=
    match body with
    | none => [.cb invalid_json_resp]
    | some _ => []
  let method_it : Option JVal :=
    match body with
    | none => none
    | some j => j.find "method"
  match method_it with
  | none =>
    ev0 ++ [.cb no_method_resp, .ub "dereferenced end iterator"]
  | some mv =>
    match mv.getStr with
    | none =>
      ev0 ++ [.cb no_method_resp, .threw "type_error at get_ref"]
    | some method_name =>
      let j := body.getD .jnull
      let params_it := j.find "params"
      let ev1 : List CbEvent :=
        match params_it with
        | none => [.cb no_params_resp]
        | some p => if p.isObject then [] else [.cb no_params_resp]
      ev0 ++ ev1 ++ dispatch_method deps st method_name params_it

/-! ## C8: `connection_t::process_storage_test_req`
(http_connection.cpp:453-517) with `TEST_RETRY_PERIOD = 50ms`
(http_connection.cpp:52)

The testee lookup `ServiceNode::process_storage_test_req` lives in
service_node.cpp (not in the sources) and is abstracted as `lookup`, giving
the status and answer of attempt `k`; `elapsed k` is the steady-clock time
in milliseconds since the connection started (`start_timestamp_`,
http_connection.cpp:312) when attempt `k` runs — successive attempts are 50
ms apart.  Only the `SUCCESS` branch calls `write_response()`; the other
branches merely fill `body_stream_`/`response_`.  After the *first*
invocation returns, the read handler (http_connection.cpp:403-405) calls
`write_response()` unless `delay_response_` was set (which the `SUCCESS`
and rescheduling branches do).  `fuel` bounds the recursion (the retry
timer fires at most `elapsed⁻¹(60000)/50 + 1` times). -/

inductive MessageTestStatus where
  | SUCCESS
  | RETRY
  | WRONG_REQ
  | ERROR
deriving DecidableEq, Repr

def storage_test_ok_body (answer : String) : String :=
  dumps (.jobj [("status", .jstr "OK"), ("value", .jstr answer)])

def storage_test_wrong_req_body : String :=
  dumps (.jobj [("status", .jstr "wrong request")])

def storage_test_other_body : String :=
  dumps (.jobj [("status", .jstr "other")])

/-- `connection_t::process_storage_test_req` from attempt `attempt` on:
returns the list of `write_response()` calls it performs (status, body) and
the final content of (`response_`, `body_stream_`). -/
def storage_test_loop (lookup : Nat → MessageTestStatus × String)
    (elapsed : Nat → Nat) :
    Nat → Nat → List (Nat × String) × (Nat × String)
  | 0, _ => ([], (INTERNAL_SERVER_ERROR, ""))
  | fuel + 1, attempt =>
    let (status, answer) := lookup attempt
    match status with
    | .SUCCESS =>
      ([(OK, storage_test_ok_body answer)], (OK, storage_test_ok_body answer))
    | .RETRY =>
      if elapsed attempt < 60000 then
        storage_test_loop lookup elapsed fuel (attempt + 1)
      else
        ([], (OK, storage_test_other_body))
    | .WRONG_REQ =>
      ([], (OK, storage_test_wrong_req_body))
    | .ERROR =>
      ([], (OK, storage_test_other_body))

/-- The complete run over one connection: the initial call happens inside
`process_request`; afterwards the read handler writes the prepared response
unless `delay_response_` is set (http_connection.cpp:403-405,476,487). -/
def storage_test_connection (lookup : Nat → MessageTestStatus × String)
    (elapsed : Nat → Nat) (fuel : Nat) : List (Nat × String) :=
  let delay :=
    match (lookup 0).1 with
    | .SUCCESS => true
    | .RETRY => elapsed 0 < 60000
    | _ => false
  let run := storage_test_loop lookup elapsed fuel 0
  if delay then run.1 else run.1 ++ [run.2]

/-! ## Spec-side definitions used by the theorem statements -/

/-- The linear distance `(id > res) ? id - res : res - id` of
swarm.cpp:322-323. -/
def linDist (res id : Nat) : Nat :=
  if id > res then id - res else res - id

/-- A JSON field is well formed for `check` when absent or satisfying it. -/
def wfField (j : JVal) (key : String) (check : JVal → Bool) : Bool :=
  match j.find key with
  | none => true
  | some v => check v

/-- Well-typedness of the optional / required fields read by
`process_inner_request`: every field that is present has the type (and, for
keys, the hex shape) its extraction requires. -/
def onionWF (j : JVal) : Prop :=
  wfField j "json" (fun v => v.getBool.isSome) = true ∧
  wfField j "base64" (fun v => v.getBool.isSome) = true ∧
  wfField j "host" JVal.isString = true ∧
  wfField j "target" JVal.isString = true ∧
  wfField j "port" (fun v => v.getU16.isSome) = true ∧
  wfField j "protocol" JVal.isString = true ∧
  wfField j "destination" (fun v => ((v.getStr).bind pubkey_from_hex).isSome) = true ∧
  wfField j "ephemeral_key" (fun v => ((v.getStr).bind pubkey_from_hex).isSome) = true ∧
  wfField j "enc_type" (fun v => ((v.getStr).bind parse_enc_type).isSome) = true

/-- A 102401-character message body (one byte over `MAX_MESSAGE_BODY`). -/
def bigData : String :=
  String.mk (List.replicate 102401 'a')

/-- The four classification outcomes of one onion peel. -/
inductive OnionKind where
  | final
  | server
  | node
  | invalid
deriving DecidableEq, Repr

def ParsedInfo.kind : ParsedInfo → OnionKind
  | .finalDest .. => .final
  | .relayToServer .. => .server
  | .relayToNode .. => .node
  | .invalidCiphertext => .invalid
  | .invalidJson => .invalid

/-- The amended classification rule, written from the (corrected) spec
words: `FinalDestination` iff `headers` is present; otherwise
`RelayToServer` iff `host` *and* `target` are present; otherwise (no
`host`) `RelayToNode` iff `destination` and `ephemeral_key` are present;
otherwise `InvalidJson`. -/
def onion_expected_kind (j : JVal) : OnionKind :=
  if j.containsKey "headers" then .final
  else if j.containsKey "host" then
    (if j.containsKey "target" then .server else .invalid)
  else if j.containsKey "destination" && j.containsKey "ephemeral_key" then .node
  else .invalid

/-! # Theorems -/

set_option maxRecDepth 8000

/-- C1: the spec says `wrap_proxy_response` returns an HTTP 200 whose body
is the base64 of the encryption of the `(status, body)` JSON under the
incoming key and enc-type.  The code (request_handler.cpp:433) discards the
return value of `encrypt`, so the returned body is the base64 encoding of
the still-empty `ciphertext` string — i.e. empty — for *every* encryption
function and every response; at the concrete input
`Response(OK, "hello")` the body that the spec requires is the (non-empty)
base64 of the encrypted dump, not the empty string the code produces. -/
theorem wrap_proxy_response_discards_encryption :
    (∀ (encrypt : String → List Nat) (res : Response),
        (wrap_proxy_response encrypt res).body = "") ∧
    base64encode ((dumps (.jobj (mapInsert "body" (.jstr "hello")
        (mapInsert "status" (.jnum OK) [])))).toList.map Char.toNat) =
      "eyJib2R5IjoiaGVsbG8iLCJzdGF0dXMiOjIwMH0=" ∧
    (wrap_proxy_response (fun s => s.toList.map Char.toNat)
        ⟨OK, "hello", .plaintext⟩).body ≠
      "eyJib2R5IjoiaGVsbG8iLCJzdGF0dXMiOjIwMH0=" :=
  ⟨fun _ _ => rfl, by decide, by decide⟩

/-- C2: the spec says `encrypt`/`decrypt` succeed for all three scheme tags
and round-trip.  The dispatching `switch` (channel_encryption.cpp:74-88)
has no `xchacha20` case: for that tag both operations throw
`"Invalid encryption type"` no matter which per-scheme primitives are
installed, although `encrypt_xchacha20`/`decrypt_xchacha20`
(channel_encryption.cpp:263-317) are fully implemented. -/
theorem channel_encryption_dispatch_rejects_xchacha20
    (prims : CipherPrimitives) (p c : List Nat) :
    ChannelEncryption.encrypt prims .xchacha20 p = .error .invalidEncryptionType ∧
    ChannelEncryption.decrypt prims .xchacha20 c = .error .invalidEncryptionType :=
  ⟨rfl, rfl⟩

/-- C4 counterexample: the claim says `INVALID_SWARM_ID` is never returned.
For the roster `[{swarm_id = 0}]` (one valid swarm) and a user pubkey whose
folded hash is `2^64 - 1`, the first loop leaves `cur_best = INVALID`
(the distance `2^64 - 1` is not `<` the initial `cur_min`), the wrap-around
branch computes `MAX_ID - res` with unsigned underflow (`2^64 - 1` again),
and `get_swarm_by_pk` returns `INVALID_SWARM_ID`. -/
theorem get_swarm_by_pk_returns_invalid :
    hex_to_u64 ("05ffffffffffffffff" ++ String.mk (List.replicate 48 '0')) =
      INVALID_SWARM_ID ∧
    (⟨0, []⟩ : SwarmInfo).swarm_id ≠ INVALID_SWARM_ID ∧
    get_swarm_by_pk [⟨0, []⟩]
      ("05ffffffffffffffff" ++ String.mk (List.replicate 48 '0')) =
      INVALID_SWARM_ID := by
  refine ⟨by decide, by decide, by decide⟩

/-- C5 counterexample: the claim says that (absent `headers`) the result is
`RelayToServer` *iff* `host` is present.  For the inner JSON
`(host = "example.com")` — `host` present, no `headers` — the code throws at
`inner_json.at("target")` and returns `InvalidJson`
(onion_processing.cpp:43,66-70). -/
theorem process_inner_request_host_without_target :
    process_inner_request false true "pt"
      (some ("ct", .jobj [("host", .jstr "example.com")])) = .invalidJson ∧
    (JVal.jobj [("host", .jstr "example.com")]).containsKey "host" = true ∧
    (JVal.jobj [("host", .jstr "example.com")]).containsKey "headers" = false :=
  ⟨rfl, rfl, rfl⟩

/-- C7 counterexample: the claim says `dissolved = true` whenever the
previously held swarm id is absent from the new roster, including when this
node is in no swarm of the new roster.  With previous id 1, a new roster
`[{id 2}]` that does not contain this node, `derive_swarm_events` returns
the early "not in any swarm" record with `dissolved = false`
(swarm.cpp:64-68) although id 1 is absent from the roster. -/
theorem derive_swarm_events_no_dissolve_outside_roster :
    (derive_swarm_events ⟨"1.1.1.1", 1, 2, "aa", "ee", "xx"⟩ 1 [] []
      [⟨2, [⟨"2.2.2.2", 1, 2, "bb", "ee", "xx"⟩]⟩]).dissolved = false ∧
    swarm_exists [⟨2, [⟨"2.2.2.2", 1, 2, "bb", "ee", "xx"⟩]⟩] 1 = false :=
  ⟨rfl, rfl⟩

/-- C8: the spec's retry machine responds `200 {status:"other"}` when 60 s
elapse with the lookup still returning `RETRY`, and writes exactly one
response per run.  In the code only the `SUCCESS` branch (and, for the
*first* attempt, the read handler) ever calls `write_response()`
(http_connection.cpp:470-516): when every attempt returns `RETRY` at 50 ms
intervals the timeout branch fills the buffer with `{"status":"other"}` but
never writes it, and a `WRONG_REQ` arriving on a retry attempt is likewise
never written — zero responses in both runs. -/
theorem storage_test_timeout_response_never_written :
    storage_test_connection (fun _ => (.RETRY, "")) (fun k => 50 * k) 1300 = [] ∧
    (storage_test_loop (fun _ => (.RETRY, "")) (fun k => 50 * k) 1300 0).2 =
      (OK, storage_test_other_body) ∧
    storage_test_other_body = "\x7b\"status\":\"other\"\x7d" ∧
    storage_test_connection
      (fun k => if k == 0 then (.RETRY, "") else (.WRONG_REQ, ""))
      (fun k => 50 * k) 1300 = [] := by
  refine ⟨by decide, by decide, rfl, by decide⟩

/-- C9: the claim says the callback is invoked exactly once, with no
further dispatch after a missing/ill-typed `params`.  The error paths of
`process_client_req` (request_handler.cpp:366-387) have no `return`: for
the body `(method = "store", params = 5)` the code first calls
`cb(400 "invalid json: no params field")` and then *also* dispatches to
`process_store(*params_it)`, which calls `cb` a second time with
`400 "invalid json: no pubKey field"`. -/
theorem process_client_req_calls_callback_twice :
    process_client_req ⟨fun _ => none, fun _ _ => none, .ok true, .ok [], id, 1, 2, 3⟩
        ⟨0, []⟩
        (some (.jobj [("method", .jstr "store"), ("params", .jnum 5)])) =
      [.cb no_params_resp,
       .cb ⟨BAD_REQUEST, "invalid json: no `pubKey` field\n", .plaintext⟩] ∧
    (process_client_req ⟨fun _ => none, fun _ _ => none, .ok true, .ok [], id, 1, 2, 3⟩
        ⟨0, []⟩
        (some (.jobj [("method", .jstr "store"), ("params", .jnum 5)]))).length ≠ 1 :=
  ⟨rfl, by decide⟩

/-- C10 counterexample: the claim says the output-length computation never
underflows.  For a 20-byte input, 8 bytes remain after the nonce and the
`size_t` subtraction `8 - 16` wraps to `2^64 - 8` (whereupon the resize
fails); so the computation does underflow. -/
theorem decrypt_gcm_out_len_underflows :
    gcm_out_len 20 = 2 ^ 64 - 8 ∧
    decrypt_gcm (2 ^ 62) (fun _ _ => none) (List.replicate 20 0) =
      .error .resizeLengthError :=
  ⟨by decide, rfl⟩

/-- C3: the spec says a request is forwarded iff the endpoint is
`get_service_nodes` or `ons_resolve`.  The allow-list
(request_handler.cpp:190-191) is deduced as
`std::unordered_set<const char*>` and `count(endpoint_str.c_str())`
compares *pointers*: since a `std::string`'s buffer is never one of the two
string literals (`endpointAddr ≠ litGSN/litONS`), the lookup always misses,
so no request is ever forwarded and even `get_service_nodes` with valid
`oxend_params` is rejected with 400 "Endpoint not allowed". -/
theorem process_oxend_request_never_forwards
    (litGSN litONS endpointAddr : Nat) (params : JVal)
    (hA : endpointAddr ≠ litGSN) (hB : endpointAddr ≠ litONS) :
    (∀ ep p, process_oxend_request litGSN litONS params endpointAddr ≠ .forward ep p) ∧
    process_oxend_request litGSN litONS
      (.jobj [("endpoint", .jstr "get_service_nodes"), ("oxend_params", .jobj [])])
      endpointAddr =
      .reply ⟨BAD_REQUEST, "Endpoint not allowed: get_service_nodes", .plaintext⟩ := by
  have hcount : ∀ s, cstrSetCount
      [⟨litGSN, "get_service_nodes"⟩, ⟨litONS, "ons_resolve"⟩]
      ⟨endpointAddr, s⟩ = 0 := by
    intro s
    have h1 : (litGSN == endpointAddr) = false := beq_eq_false_iff_ne.mpr (Ne.symm hA)
    have h2 : (litONS == endpointAddr) = false := beq_eq_false_iff_ne.mpr (Ne.symm hB)
    simp [cstrSetCount, List.filter, h1, h2]
  constructor
  · intro ep p
    unfold process_oxend_request
    cases hf : params.find "endpoint" with
    | none => simp
    | some e =>
      cases he : e.isString with
      | false => simp [he]
      | true => simp [he, hcount]
  · unfold process_oxend_request
    simp [JVal.find, List.lookup, JVal.isString, JVal.getStr, hcount]

theorem process_oxend_request_never_forwards_witness :
    ((3 : Nat) ≠ 1 ∧ (3 : Nat) ≠ 2) ∧
    ((∀ ep p, process_oxend_request 1 2
        (.jobj [("endpoint", .jstr "ons_resolve"), ("oxend_params", .jobj [])]) 3 ≠
        .forward ep p) ∧
     process_oxend_request 1 2
       (.jobj [("endpoint", .jstr "get_service_nodes"), ("oxend_params", .jobj [])])
       3 =
       .reply ⟨BAD_REQUEST, "Endpoint not allowed: get_service_nodes", .plaintext⟩) :=
  ⟨⟨by decide, by decide⟩,
   process_oxend_request_never_forwards 1 2 3
     (.jobj [("endpoint", .jstr "ons_resolve"), ("oxend_params", .jobj [])])
     (by decide) (by decide)⟩

/-- C10 (amended): for every input shorter than nonce (12) plus tag (16)
bytes, `decrypt_gcm` fails with an error and never returns a plaintext —
but not through a length guard: the `size_t` output-length computation
underflows (wraps to at least `2^64 - 16`), and the failure is the
oversized `resize` throwing `length_error` (`max_size()` is below
`2^64 - 16` on every platform). -/
theorem decrypt_gcm_short_input_always_fails (max_size : Nat)
    (hms : max_size < 2 ^ 64 - 16)
    (verify : List Nat → List Nat → Option (List Nat)) (ct : List Nat)
    (hlen : ct.length < 28) :
    decrypt_gcm max_size verify ct = .error .resizeLengthError ∧
    2 ^ 64 - 16 ≤ u64sub (ct.drop 12).length 16 := by
  have hd : (ct.drop 12).length = ct.length - 12 := by simp
  have hu : u64sub (ct.drop 12).length 16 = (ct.drop 12).length + (2 ^ 64 - 16) := by
    unfold u64sub U64MOD
    rw [Nat.mod_eq_of_lt]
    omega
  constructor
  · unfold decrypt_gcm
    rw [if_pos]
    omega
  · omega

theorem decrypt_gcm_short_input_always_fails_witness :
    (2 ^ 62 < 2 ^ 64 - 16 ∧ (List.replicate 20 (0 : Nat)).length < 28) ∧
    (decrypt_gcm (2 ^ 62) (fun _ _ => none) (List.replicate 20 0) =
       .error .resizeLengthError ∧
     2 ^ 64 - 16 ≤ u64sub ((List.replicate 20 (0 : Nat)).drop 12).length 16) :=
  ⟨⟨by decide, by decide⟩,
   decrypt_gcm_short_input_always_fails (2 ^ 62) (by decide)
     (fun _ _ => none) (List.replicate 20 0) (by decide)⟩

/-- C7 (amended): `dissolved = true` if and only if this node is a member
of some swarm of the new roster *and* the previously held id is not the
INVALID sentinel *and* the previous id is absent from the new roster's
swarm ids.  (When the node is in no swarm, or the previous id is INVALID,
the code returns early with `dissolved = false` even if the previous id is
absent, contrary to the claim's parenthetical.) -/
theorem derive_swarm_events_dissolved_iff (our : SnRecord) (cur : Nat)
    (peers : List SnRecord) (prev roster : List SwarmInfo) :
    (derive_swarm_events our cur peers prev roster).dissolved = true ↔
      (roster.any (fun si => si.snodes.any (fun sn => snEq sn our)) = true ∧
       cur ≠ INVALID_SWARM_ID ∧ swarm_exists roster cur = false) := by
  unfold derive_swarm_events
  cases hf : roster.find? (fun si => si.snodes.any fun sn => snEq sn our) with
  | none =>
    have hnone := List.find?_eq_none.mp hf
    constructor
    · intro h; cases h
    · rintro ⟨hany, -, -⟩
      obtain ⟨si, hmem, hpred⟩ := List.any_eq_true.mp hany
      exact absurd hpred (by simpa using hnone si hmem)
  | some s =>
    have hmem := List.mem_of_find?_eq_some hf
    have hpred := List.find?_some hf
    have hany : roster.any (fun si => si.snodes.any fun sn => snEq sn our) = true :=
      List.any_eq_true.mpr ⟨s, hmem, hpred⟩
    dsimp only []
    by_cases hc : cur = INVALID_SWARM_ID
    · simp [hc]
    · by_cases he : cur = s.swarm_id
      · subst he
        have hex : swarm_exists roster s.swarm_id = true := by
          unfold swarm_exists
          exact List.any_eq_true.mpr ⟨s, hmem, by simp⟩
        simp [hc, hex]
      · rw [if_neg hc, if_pos he]
        constructor
        · intro h
          refine ⟨hany, hc, ?_⟩
          simpa [Bool.not_eq_true'] using h
        · rintro ⟨-, -, h3⟩
          simp [h3]

/-! ### Helper lemmas about JSON field access -/

lemma wfField_some {j : JVal} {key : String} {check : JVal → Bool} {v : JVal}
    (h : wfField j key check = true) (hf : j.find key = some v) : check v = true := by
  unfold wfField at h
  rw [hf] at h
  exact h

lemma containsKey_true_iff {j : JVal} {key : String} :
    j.containsKey key = true ↔ ∃ v, j.find key = some v := by
  simp [JVal.containsKey, Option.isSome_iff_exists]

lemma containsKey_false_iff {j : JVal} {key : String} :
    j.containsKey key = false ↔ j.find key = none := by
  unfold JVal.containsKey
  cases j.find key <;> simp

lemma getStr_of_isString {v : JVal} (h : v.isString = true) : ∃ s, v.getStr = some s := by
  cases v <;> simp_all [JVal.isString, JVal.getStr]

lemma getBoolOpt_some {j : JVal} {key : String} {d : Bool}
    (h : wfField j key (fun v => v.getBool.isSome) = true) :
    ∃ b, getBoolOpt j key d = some b := by
  unfold getBoolOpt
  cases hf : j.find key with
  | none => exact ⟨d, rfl⟩
  | some v => exact Option.isSome_iff_exists.mp (wfField_some h hf)

/-- C5 (amended): given that the decrypted layer parses as a combined
payload and every present field is well typed, the classification is:
`FinalDestination` iff `headers` is present; otherwise `RelayToServer` iff
`host` *and* `target` are present; otherwise (no `host`) `RelayToNode` iff
`destination` *and* `ephemeral_key` are present; otherwise `InvalidJson`.
(The unamended claim omits the `target` and `ephemeral_key` requirements:
a missing one makes `at(...)` throw, collapsing to `InvalidJson`.) -/
theorem process_inner_request_classification (jd bd : Bool) (pt ct : String)
    (j : JVal) (hwf : onionWF j) :
    (process_inner_request jd bd pt (some (ct, j))).kind = onion_expected_kind j := by
  obtain ⟨hJ, hB, hH, hT, hP, hPr, hD, hE, hET⟩ := hwf
  unfold process_inner_request onion_expected_kind
  dsimp only []
  by_cases hh : j.containsKey "headers"
  · rw [if_pos hh, if_pos hh]
    obtain ⟨b1, hb1⟩ := getBoolOpt_some (d := jd) hJ
    obtain ⟨b2, hb2⟩ := getBoolOpt_some (d := bd) hB
    rw [hb1, hb2]
    rfl
  · rw [if_neg hh, if_neg hh]
    cases hfh : j.find "host" with
    | some hv =>
      have hhk : j.containsKey "host" = true := containsKey_true_iff.mpr ⟨hv, hfh⟩
      rw [if_pos hhk]
      dsimp only []
      obtain ⟨hosts, hhs⟩ := getStr_of_isString (wfField_some hH hfh)
      rw [hhs]
      dsimp only []
      by_cases ht : j.containsKey "target"
      · obtain ⟨tv, htv⟩ := containsKey_true_iff.mp ht
        obtain ⟨ts, hts⟩ := getStr_of_isString (wfField_some hT htv)
        rw [htv, if_pos ht]
        dsimp only [Option.bind]
        rw [hts]
        dsimp only []
        have hport : (match j.find "port" with
            | none => some 443
            | some p => p.getU16) = some (match j.find "port" with
              | none => 443
              | some p => (p.getU16).getD 0) := by
          cases hfp : j.find "port" with
          | none => rfl
          | some p =>
            obtain ⟨n, hn⟩ := Option.isSome_iff_exists.mp (wfField_some hP hfp)
            simp [hn]
        have hproto : (match j.find "protocol" with
            | none => some "https"
            | some p => p.getStr) = some (match j.find "protocol" with
              | none => "https"
              | some p => (p.getStr).getD "") := by
          cases hfp : j.find "protocol" with
          | none => rfl
          | some p =>
            obtain ⟨s, hs⟩ := getStr_of_isString (wfField_some hPr hfp)
            simp [hs]
        rw [hport, hproto]
        rfl
      · have hnone : j.find "target" = none := containsKey_false_iff.mp (by simpa using ht)
        rw [hnone, if_neg ht]
        rfl
    | none =>
      have hhk : j.containsKey "host" = false := containsKey_false_iff.mpr hfh
      rw [if_neg (by simp [hhk] : ¬ j.containsKey "host" = true)]
      dsimp only []
      cases hfd : j.find "destination" with
      | none =>
        have hdk : j.containsKey "destination" = false := containsKey_false_iff.mpr hfd
        simp [hdk, ParsedInfo.kind]
      | some dv =>
        have hdk : j.containsKey "destination" = true := containsKey_true_iff.mpr ⟨dv, hfd⟩
        obtain ⟨ds, hds⟩ := Option.isSome_iff_exists.mp (wfField_some hD hfd)
        have hds2 : ((some dv).bind JVal.getStr).bind pubkey_from_hex = some ds := by
          simpa using hds
        rw [hds2]
        dsimp only []
        cases hfe : j.find "ephemeral_key" with
        | none =>
          have hek : j.containsKey "ephemeral_key" = false := containsKey_false_iff.mpr hfe
          simp [hdk, hek, ParsedInfo.kind]
        | some ev =>
          have hek : j.containsKey "ephemeral_key" = true := containsKey_true_iff.mpr ⟨ev, hfe⟩
          obtain ⟨es, hes⟩ := Option.isSome_iff_exists.mp (wfField_some hE hfe)
          have hes2 : ((some ev).bind JVal.getStr).bind pubkey_from_hex = some es := by
            simpa using hes
          rw [hes2]
          dsimp only []
          have henc : (match j.find "enc_type" with
              | none => some EncryptType.aes_gcm
              | some v => v.getStr.bind parse_enc_type).isSome = true := by
            cases hfx : j.find "enc_type" with
            | none => rfl
            | some x => exact wfField_some hET hfx
          obtain ⟨et, het⟩ := Option.isSome_iff_exists.mp henc
          rw [het]
          simp [hdk, hek, ParsedInfo.kind]

theorem process_inner_request_classification_witness :
    onionWF (JVal.jobj [("headers", .jstr "")]) ∧
    (process_inner_request false true "pt"
        (some ("X", .jobj [("headers", .jstr "")]))).kind =
      onion_expected_kind (.jobj [("headers", .jstr "")]) :=
  ⟨⟨rfl, rfl, rfl, rfl, rfl, rfl, rfl, rfl, rfl⟩,
   process_inner_request_classification false true "pt" "X"
     (.jobj [("headers", .jstr "")])
     ⟨rfl, rfl, rfl, rfl, rfl, rfl, rfl, rfl, rfl⟩⟩

/-- C6 (amended): a `store` whose four fields are present and string-typed
with `data` within the 100 KiB limit, and a `retrieve` with `pubKey`
(string, parsing) and `lastHash` present, for a pubkey owned by swarm
`S` different from ours, return HTTP 421 whose JSON body lists exactly the
members of `S`, and the persistence layer is not touched.  (The unamended
claim promises 421 for *every* such store/retrieve; the size check and the
string-typed `get_ref`s run first — see the counterexample.) -/
theorem store_retrieve_wrong_swarm_misdirected
    (deps : HandlerDeps) (st : ServiceNodeState) (params_s params_r : JVal)
    (pk ttlv tsv datav : String) (S : SwarmInfo)
    (hs_ttl : params_s.find "ttl" = some (.jstr ttlv))
    (hs_ts : params_s.find "timestamp" = some (.jstr tsv))
    (hs_data : params_s.find "data" = some (.jstr datav))
    (hs_pk : params_s.find "pubKey" = some (.jstr pk))
    (hr_pk : params_r.find "pubKey" = some (.jstr pk))
    (hr_lh : params_r.containsKey "lastHash" = true)
    (hpk : pk.length = 66)
    (hdata : datav.length ≤ 102400)
    (hwrong : st.cur_swarm_id ≠ get_swarm_by_pk st.all_valid_swarms pk)
    (hS : st.all_valid_swarms.find?
        (fun si => si.swarm_id == get_swarm_by_pk st.all_valid_swarms pk) = some S) :
    process_store deps st params_s =
      .resp ⟨MISDIRECTED_REQUEST, dumps (snodes_to_json deps.b32z S.snodes), .json⟩ false ∧
    process_retrieve deps st params_r =
      .resp ⟨MISDIRECTED_REQUEST, dumps (snodes_to_json deps.b32z S.snodes), .json⟩ false := by
  have hsnodes : get_snodes_by_pk st pk = S.snodes := by
    unfold get_snodes_by_pk
    dsimp only []
    rw [hS]
  have hwr : handle_wrong_swarm deps.b32z st pk =
      ⟨MISDIRECTED_REQUEST, dumps (snodes_to_json deps.b32z S.snodes), .json⟩ := by
    unfold handle_wrong_swarm
    rw [hsnodes]
  have hforus : is_pubkey_for_us st pk = false := by
    unfold is_pubkey_for_us
    exact beq_eq_false_iff_ne.mpr hwrong
  have hcreate : user_pubkey_create_ok pk = true := by
    unfold user_pubkey_create_ok
    simp [hpk]
  have hnbig : ¬ (datav.length > 102400) := by omega
  constructor
  · have c1 : params_s.containsKey "pubKey" = true := containsKey_true_iff.mpr ⟨_, hs_pk⟩
    have c2 : params_s.containsKey "ttl" = true := containsKey_true_iff.mpr ⟨_, hs_ttl⟩
    have c3 : params_s.containsKey "timestamp" = true := containsKey_true_iff.mpr ⟨_, hs_ts⟩
    have c4 : params_s.containsKey "data" = true := containsKey_true_iff.mpr ⟨_, hs_data⟩
    unfold process_store
    rw [c1, c2, c3, c4, hs_ttl, hs_ts, hs_data, hs_pk]
    dsimp only [Option.bind, JVal.getStr]
    rw [hcreate, hforus]
    simp [hnbig, hwr]
  · have c1 : params_r.containsKey "pubKey" = true := containsKey_true_iff.mpr ⟨_, hr_pk⟩
    unfold process_retrieve
    rw [c1, hr_lh, hr_pk]
    dsimp only [Option.bind, JVal.getStr]
    rw [hcreate, hforus]
    simp [hwr]

theorem store_retrieve_wrong_swarm_misdirected_witness :
    process_store ⟨fun _ => none, fun _ _ => none, .ok true, .ok [], id, 1, 2, 3⟩
        ⟨0, [⟨0, [⟨"1.1.1.1", 1, 2, "aa", "ed", "x5"⟩]⟩,
             ⟨2 ^ 63, [⟨"2.2.2.2", 3, 4, "bb", "ed2", "x52"⟩]⟩]⟩
        (.jobj [("pubKey", .jstr ("05" ++ "8000000000000000" ++
            String.mk (List.replicate 48 '0'))),
          ("ttl", .jstr "100"), ("timestamp", .jstr "1"), ("data", .jstr "x")]) =
      .resp ⟨MISDIRECTED_REQUEST,
        dumps (snodes_to_json id [⟨"2.2.2.2", 3, 4, "bb", "ed2", "x52"⟩]), .json⟩
        false ∧
    process_retrieve ⟨fun _ => none, fun _ _ => none, .ok true, .ok [], id, 1, 2, 3⟩
        ⟨0, [⟨0, [⟨"1.1.1.1", 1, 2, "aa", "ed", "x5"⟩]⟩,
             ⟨2 ^ 63, [⟨"2.2.2.2", 3, 4, "bb", "ed2", "x52"⟩]⟩]⟩
        (.jobj [("pubKey", .jstr ("05" ++ "8000000000000000" ++
            String.mk (List.replicate 48 '0'))),
          ("lastHash", .jnum 7)]) =
      .resp ⟨MISDIRECTED_REQUEST,
        dumps (snodes_to_json id [⟨"2.2.2.2", 3, 4, "bb", "ed2", "x52"⟩]), .json⟩
        false :=
  store_retrieve_wrong_swarm_misdirected
    ⟨fun _ => none, fun _ _ => none, .ok true, .ok [], id, 1, 2, 3⟩
    ⟨0, [⟨0, [⟨"1.1.1.1", 1, 2, "aa", "ed", "x5"⟩]⟩,
         ⟨2 ^ 63, [⟨"2.2.2.2", 3, 4, "bb", "ed2", "x52"⟩]⟩]⟩
    _ _ _ _ _ _ ⟨2 ^ 63, [⟨"2.2.2.2", 3, 4, "bb", "ed2", "x52"⟩]⟩
    rfl rfl rfl rfl rfl rfl (by decide) (by decide) (by decide) (by decide)

/-- C6 counterexample: a store for a pubkey of the *other* swarm whose
`data` is one byte over the limit returns 400 (the size check at
request_handler.cpp:128 precedes the swarm check at line 137), not the 421
the claim requires for every wrong-swarm store. -/
theorem process_store_oversized_bypasses_misdirected :
    is_pubkey_for_us
      ⟨0, [⟨0, [⟨"1.1.1.1", 1, 2, "aa", "ed", "x5"⟩]⟩,
           ⟨2 ^ 63, [⟨"2.2.2.2", 3, 4, "bb", "ed2", "x52"⟩]⟩]⟩
      ("05" ++ "8000000000000000" ++ String.mk (List.replicate 48 '0')) = false ∧
    process_store ⟨fun _ => none, fun _ _ => none, .ok true, .ok [], id, 1, 2, 3⟩
        ⟨0, [⟨0, [⟨"1.1.1.1", 1, 2, "aa", "ed", "x5"⟩]⟩,
             ⟨2 ^ 63, [⟨"2.2.2.2", 3, 4, "bb", "ed2", "x52"⟩]⟩]⟩
        (.jobj [("pubKey", .jstr ("05" ++ "8000000000000000" ++
            String.mk (List.replicate 48 '0'))),
          ("ttl", .jstr "100"), ("timestamp", .jstr "1"), ("data", .jstr bigData)]) =
      .resp ⟨BAD_REQUEST,
        "Message body exceeds maximum allowed length of 102400\n", .plaintext⟩
        false := by
  constructor
  · decide
  · have hlen : bigData.length = 102401 := by
      unfold bigData
      show (List.replicate 102401 'a').length = 102401
      exact List.length_replicate _ _
    unfold process_store
    rw [show (JVal.jobj [("pubKey", .jstr ("05" ++ "8000000000000000" ++
          String.mk (List.replicate 48 '0'))),
        ("ttl", .jstr "100"), ("timestamp", .jstr "1"),
        ("data", .jstr bigData)]).find "ttl" = some (.jstr "100") from rfl,
      show (JVal.jobj [("pubKey", .jstr ("05" ++ "8000000000000000" ++
          String.mk (List.replicate 48 '0'))),
        ("ttl", .jstr "100"), ("timestamp", .jstr "1"),
        ("data", .jstr bigData)]).find "timestamp" = some (.jstr "1") from rfl,
      show (JVal.jobj [("pubKey", .jstr ("05" ++ "8000000000000000" ++
          String.mk (List.replicate 48 '0'))),
        ("ttl", .jstr "100"), ("timestamp", .jstr "1"),
        ("data", .jstr bigData)]).find "data" = some (.jstr bigData) from rfl,
      show (JVal.jobj [("pubKey", .jstr ("05" ++ "8000000000000000" ++
          String.mk (List.replicate 48 '0'))),
        ("ttl", .jstr "100"), ("timestamp", .jstr "1"),
        ("data", .jstr bigData)]).find "pubKey" =
        some (.jstr ("05" ++ "8000000000000000" ++
          String.mk (List.replicate 48 '0'))) from rfl]
    dsimp only [Option.bind, JVal.getStr, JVal.containsKey, JVal.find]
    simp [hlen, user_pubkey_create_ok]
    decide

lemma hexDigitVal_le {c : Char} {d : Nat} (h : hexDigitVal c = some d) : d ≤ 15 := by
  unfold hexDigitVal at h
  split_ifs at h with h1 h2 h3 <;> injection h with h
  · have hb : c.toNat ≤ 57 := h1.2
    omega
  · have hb : c.toNat ≤ 102 := h2.2
    omega
  · have hb : c.toNat ≤ 70 := h3.2
    omega

lemma strtoull16_lt (cs : List Char) (acc : Nat) :
    strtoull16 cs acc < (acc + 1) * 16 ^ cs.length := by
  induction cs generalizing acc with
  | nil => simp [strtoull16]
  | cons c cs ih =>
    unfold strtoull16
    cases hd : hexDigitVal c with
    | none =>
      have h16 : 1 ≤ 16 ^ (cs.length + 1) := Nat.one_le_pow _ _ (by omega)
      calc acc < acc + 1 := by omega
        _ ≤ (acc + 1) * 16 ^ (cs.length + 1) := Nat.le_mul_of_pos_right _ (by omega)
    | some d =>
      have hd15 : d ≤ 15 := hexDigitVal_le hd
      have := ih (acc * 16 + d)
      calc strtoull16 cs (acc * 16 + d) < (acc * 16 + d + 1) * 16 ^ cs.length := this
        _ ≤ ((acc + 1) * 16) * 16 ^ cs.length := by nlinarith
        _ = (acc + 1) * 16 ^ (cs.length + 1) := by ring

lemma strtoull16_take16_lt (cs : List Char) : strtoull16 (cs.take 16) 0 < 2 ^ 64 := by
  have h := strtoull16_lt (cs.take 16) 0
  have hlen : (cs.take 16).length ≤ 16 := by simp
  have hpow : (16 : Nat) ^ (cs.take 16).length ≤ 16 ^ 16 :=
    Nat.pow_le_pow_right (by omega) hlen
  have h16 : (16 : Nat) ^ 16 = 2 ^ 64 := by norm_num
  omega

lemma hex_to_u64_loop_lt (fuel : Nat) (cs : List Char) (res : Nat)
    (h : res < 2 ^ 64) : hex_to_u64_loop fuel cs res < 2 ^ 64 := by
  induction fuel generalizing cs res with
  | zero =>
    cases cs <;> simpa [hex_to_u64_loop]
  | succ f ih =>
    cases cs with
    | nil => simpa [hex_to_u64_loop]
    | cons c cs2 =>
      unfold hex_to_u64_loop
      exact ih _ _ (Nat.xor_lt_two_pow h (strtoull16_take16_lt _))

lemma hex_to_u64_lt (pk : String) : hex_to_u64 pk < 2 ^ 64 := by
  unfold hex_to_u64
  exact hex_to_u64_loop_lt _ _ _ (by norm_num)

lemma linDist_le_max {res id m : Nat} (h1 : res ≤ m) (h2 : id ≤ m) :
    linDist res id ≤ m := by
  unfold linDist
  split_ifs <;> omega

lemma swarmLoopStep_facts (res : Nat) (st : SwarmLoopSt) (si : SwarmInfo) :
    (swarmLoopStep res st si).cur_min ≤ st.cur_min ∧
    (si.swarm_id ≠ INVALID_SWARM_ID →
      (swarmLoopStep res st si).cur_min ≤ linDist res si.swarm_id) ∧
    (((swarmLoopStep res st si).cur_best = st.cur_best ∧
      (swarmLoopStep res st si).cur_min = st.cur_min) ∨
     (si.swarm_id ≠ INVALID_SWARM_ID ∧
      (swarmLoopStep res st si).cur_best = si.swarm_id ∧
      (swarmLoopStep res st si).cur_min = linDist res si.swarm_id)) ∧
    (swarmLoopStep res st si).leftmost ≤ st.leftmost ∧
    (si.swarm_id ≠ INVALID_SWARM_ID →
      (swarmLoopStep res st si).leftmost ≤ si.swarm_id) ∧
    ((swarmLoopStep res st si).leftmost = st.leftmost ∨
     (si.swarm_id ≠ INVALID_SWARM_ID ∧
      (swarmLoopStep res st si).leftmost = si.swarm_id)) ∧
    st.rightmost ≤ (swarmLoopStep res st si).rightmost ∧
    (si.swarm_id ≠ INVALID_SWARM_ID →
      si.swarm_id ≤ (swarmLoopStep res st si).rightmost) ∧
    ((swarmLoopStep res st si).rightmost = st.rightmost ∨
     (si.swarm_id ≠ INVALID_SWARM_ID ∧
      (swarmLoopStep res st si).rightmost = si.swarm_id)) := by
  unfold swarmLoopStep linDist
  by_cases h0 : si.swarm_id = INVALID_SWARM_ID
  · simp [h0]
  · simp only [h0, if_false]
    split_ifs <;> simp_all <;> omega

lemma swarmLoop_facts (res : Nat) (l : List SwarmInfo) (st : SwarmLoopSt) :
    (swarmLoop res l st).cur_min ≤ st.cur_min ∧
    (∀ si ∈ l, si.swarm_id ≠ INVALID_SWARM_ID →
      (swarmLoop res l st).cur_min ≤ linDist res si.swarm_id) ∧
    (((swarmLoop res l st).cur_best = st.cur_best ∧
      (swarmLoop res l st).cur_min = st.cur_min) ∨
     (∃ si ∈ l, si.swarm_id ≠ INVALID_SWARM_ID ∧
       (swarmLoop res l st).cur_best = si.swarm_id ∧
       (swarmLoop res l st).cur_min = linDist res si.swarm_id)) ∧
    (swarmLoop res l st).leftmost ≤ st.leftmost ∧
    (∀ si ∈ l, si.swarm_id ≠ INVALID_SWARM_ID →
      (swarmLoop res l st).leftmost ≤ si.swarm_id) ∧
    ((swarmLoop res l st).leftmost = st.leftmost ∨
     (∃ si ∈ l, si.swarm_id ≠ INVALID_SWARM_ID ∧
       (swarmLoop res l st).leftmost = si.swarm_id)) ∧
    st.rightmost ≤ (swarmLoop res l st).rightmost ∧
    (∀ si ∈ l, si.swarm_id ≠ INVALID_SWARM_ID →
      si.swarm_id ≤ (swarmLoop res l st).rightmost) ∧
    ((swarmLoop res l st).rightmost = st.rightmost ∨
     (∃ si ∈ l, si.swarm_id ≠ INVALID_SWARM_ID ∧
       (swarmLoop res l st).rightmost = si.swarm_id)) := by
  induction l generalizing st with
  | nil => simp [swarmLoop]
  | cons si rest ih =>
    obtain ⟨sA, sB, sC, sD, sE, sF, sG, sH, sI⟩ := swarmLoopStep_facts res st si
    obtain ⟨iA, iB, iC, iD, iE, iF, iG, iH, iI⟩ := ih (swarmLoopStep res st si)
    have hloop : swarmLoop res (si :: rest) st =
        swarmLoop res rest (swarmLoopStep res st si) := rfl
    rw [hloop]
    refine ⟨le_trans iA sA, ?_, ?_, le_trans iD sD, ?_, ?_, le_trans sG iG, ?_, ?_⟩
    · intro si2 hmem hv
      rcases List.mem_cons.mp hmem with h | h
      · subst h
        exact le_trans iA (sB hv)
      · exact iB si2 h hv
    · rcases iC with ⟨hb, hm⟩ | ⟨si2, hmem, hv, hb, hm⟩
      · rcases sC with ⟨hb2, hm2⟩ | ⟨hv2, hb2, hm2⟩
        · exact Or.inl ⟨hb.trans hb2, hm.trans hm2⟩
        · exact Or.inr ⟨si, List.mem_cons_self si rest, hv2, hb.trans hb2, hm.trans hm2⟩
      · exact Or.inr ⟨si2, List.mem_cons_of_mem si hmem, hv, hb, hm⟩
    · intro si2 hmem hv
      rcases List.mem_cons.mp hmem with h | h
      · subst h
        exact le_trans iD (sE hv)
      · exact iE si2 h hv
    · rcases iF with hlm | ⟨si2, hmem, hv, hlm⟩
      · rcases sF with hlm2 | ⟨hv2, hlm2⟩
        · exact Or.inl (hlm.trans hlm2)
        · exact Or.inr ⟨si, List.mem_cons_self si rest, hv2, hlm.trans hlm2⟩
      · exact Or.inr ⟨si2, List.mem_cons_of_mem si hmem, hv, hlm⟩
    · intro si2 hmem hv
      rcases List.mem_cons.mp hmem with h | h
      · subst h
        exact le_trans (sH hv) iG
      · exact iH si2 h hv
    · rcases iI with hrm | ⟨si2, hmem, hv, hrm⟩
      · rcases sI with hrm2 | ⟨hv2, hrm2⟩
        · exact Or.inl (hrm.trans hrm2)
        · exact Or.inr ⟨si, List.mem_cons_self si rest, hv2, hrm.trans hrm2⟩
      · exact Or.inr ⟨si2, List.mem_cons_of_mem si hmem, hv, hrm⟩

lemma swarmLoop_init_facts (res : Nat) (l : List SwarmInfo) :
    (∀ si ∈ l, si.swarm_id ≠ INVALID_SWARM_ID →
      (swarmLoop res l ⟨INVALID_SWARM_ID, INVALID_SWARM_ID, INVALID_SWARM_ID, 0⟩).cur_min ≤
        linDist res si.swarm_id) ∧
    (((swarmLoop res l ⟨INVALID_SWARM_ID, INVALID_SWARM_ID, INVALID_SWARM_ID, 0⟩).cur_best =
        INVALID_SWARM_ID ∧
      (swarmLoop res l ⟨INVALID_SWARM_ID, INVALID_SWARM_ID, INVALID_SWARM_ID, 0⟩).cur_min =
        INVALID_SWARM_ID) ∨
     (∃ si ∈ l, si.swarm_id ≠ INVALID_SWARM_ID ∧
       (swarmLoop res l ⟨INVALID_SWARM_ID, INVALID_SWARM_ID, INVALID_SWARM_ID, 0⟩).cur_best =
         si.swarm_id ∧
       (swarmLoop res l ⟨INVALID_SWARM_ID, INVALID_SWARM_ID, INVALID_SWARM_ID, 0⟩).cur_min =
         linDist res si.swarm_id)) ∧
    (∀ si ∈ l, si.swarm_id ≠ INVALID_SWARM_ID →
      (swarmLoop res l ⟨INVALID_SWARM_ID, INVALID_SWARM_ID, INVALID_SWARM_ID, 0⟩).leftmost ≤
        si.swarm_id) ∧
    ((swarmLoop res l ⟨INVALID_SWARM_ID, INVALID_SWARM_ID, INVALID_SWARM_ID, 0⟩).leftmost =
        INVALID_SWARM_ID ∨
     (∃ si ∈ l, si.swarm_id ≠ INVALID_SWARM_ID ∧
       (swarmLoop res l ⟨INVALID_SWARM_ID, INVALID_SWARM_ID, INVALID_SWARM_ID, 0⟩).leftmost =
         si.swarm_id)) ∧
    (∀ si ∈ l, si.swarm_id ≠ INVALID_SWARM_ID →
      si.swarm_id ≤
        (swarmLoop res l ⟨INVALID_SWARM_ID, INVALID_SWARM_ID, INVALID_SWARM_ID, 0⟩).rightmost) ∧
    ((swarmLoop res l ⟨INVALID_SWARM_ID, INVALID_SWARM_ID, INVALID_SWARM_ID, 0⟩).rightmost = 0 ∨
     (∃ si ∈ l, si.swarm_id ≠ INVALID_SWARM_ID ∧
       (swarmLoop res l ⟨INVALID_SWARM_ID, INVALID_SWARM_ID, INVALID_SWARM_ID, 0⟩).rightmost =
         si.swarm_id)) := by
  obtain ⟨iA, iB, iC, iD, iE, iF, iG, iH, iI⟩ :=
    swarmLoop_facts res l ⟨INVALID_SWARM_ID, INVALID_SWARM_ID, INVALID_SWARM_ID, 0⟩
  exact ⟨iB, iC, iE, iF, iH, iI⟩

lemma get_swarm_by_pk_core_spec (roster : List SwarmInfo) (res : Nat)
    (hres_le : res ≤ 2 ^ 64 - 2)
    (hbound : ∀ si ∈ roster, si.swarm_id < 2 ^ 64)
    (hvalid : ∃ si ∈ roster, si.swarm_id ≠ INVALID_SWARM_ID) :
    ((∃ si ∈ roster, si.swarm_id = get_swarm_by_pk_core roster res) ∧
      get_swarm_by_pk_core roster res ≠ INVALID_SWARM_ID) ∧
    ((∃ si ∈ roster, si.swarm_id ≠ INVALID_SWARM_ID ∧ si.swarm_id ≤ res) →
     (∃ si ∈ roster, si.swarm_id ≠ INVALID_SWARM_ID ∧ res ≤ si.swarm_id) →
     ∀ si ∈ roster, si.swarm_id ≠ INVALID_SWARM_ID →
       linDist res (get_swarm_by_pk_core roster res) ≤ linDist res si.swarm_id) := by
  obtain ⟨si0, hmem0, hv0⟩ := hvalid
  obtain ⟨iB, iC, iE, iF, iH, iI⟩ := swarmLoop_init_facts res roster
  have hINV : INVALID_SWARM_ID = 2 ^ 64 - 1 := rfl
  have hid0 : si0.swarm_id ≤ 2 ^ 64 - 2 := by
    have h := hbound si0 hmem0
    clear iC iF iI
    omega
  have hmin_lt : (swarmLoop res roster
      ⟨INVALID_SWARM_ID, INVALID_SWARM_ID, INVALID_SWARM_ID, 0⟩).cur_min <
      INVALID_SWARM_ID := by
    have h1 := iB si0 hmem0 hv0
    have h2 : linDist res si0.swarm_id ≤ 2 ^ 64 - 2 := linDist_le_max hres_le hid0
    clear iC iF iI
    omega
  obtain ⟨siB, hmemB, hvB, hbB, hmB⟩ :
      ∃ si ∈ roster, si.swarm_id ≠ INVALID_SWARM_ID ∧
        (swarmLoop res roster
          ⟨INVALID_SWARM_ID, INVALID_SWARM_ID, INVALID_SWARM_ID, 0⟩).cur_best =
          si.swarm_id ∧
        (swarmLoop res roster
          ⟨INVALID_SWARM_ID, INVALID_SWARM_ID, INVALID_SWARM_ID, 0⟩).cur_min =
          linDist res si.swarm_id := by
    rcases iC with ⟨hb, hm⟩ | h
    · rw [hm] at hmin_lt
      exact absurd hmin_lt (lt_irrefl _)
    · exact h
  obtain ⟨siL, hmemL, hvL, hlmL⟩ :
      ∃ si ∈ roster, si.swarm_id ≠ INVALID_SWARM_ID ∧
        (swarmLoop res roster
          ⟨INVALID_SWARM_ID, INVALID_SWARM_ID, INVALID_SWARM_ID, 0⟩).leftmost =
          si.swarm_id := by
    rcases iF with hlm | h
    · exfalso
      have h1 := iE si0 hmem0 hv0
      rw [hlm] at h1
      clear iC iI
      omega
    · exact h
  obtain ⟨siR, hmemR, hvR, hrmR⟩ :
      ∃ si ∈ roster, si.swarm_id ≠ INVALID_SWARM_ID ∧
        (swarmLoop res roster
          ⟨INVALID_SWARM_ID, INVALID_SWARM_ID, INVALID_SWARM_ID, 0⟩).rightmost =
          si.swarm_id := by
    rcases iI with hrm | h
    · have h1 := iH si0 hmem0 hv0
      rw [hrm] at h1
      refine ⟨si0, hmem0, hv0, ?_⟩
      clear iC iF
      omega
    · exact h
  clear iC iF iI
  unfold get_swarm_by_pk_core
  dsimp only []
  by_cases hgt : res > (swarmLoop res roster
      ⟨INVALID_SWARM_ID, INVALID_SWARM_ID, INVALID_SWARM_ID, 0⟩).rightmost
  · rw [if_pos hgt]
    have hvac : (∃ si ∈ roster, si.swarm_id ≠ INVALID_SWARM_ID ∧ res ≤ si.swarm_id) →
        False := by
      rintro ⟨siU, hmemU, hvU, hleU⟩
      have := iH siU hmemU hvU
      omega
    split_ifs with hdist
    · exact ⟨⟨⟨siL, hmemL, hlmL.symm⟩, by rw [hlmL]; exact hvL⟩,
        fun _ hhi => absurd hhi hvac⟩
    · exact ⟨⟨⟨siB, hmemB, hbB.symm⟩, by rw [hbB]; exact hvB⟩,
        fun _ hhi => absurd hhi hvac⟩
  · rw [if_neg hgt]
    by_cases hlt : res < (swarmLoop res roster
        ⟨INVALID_SWARM_ID, INVALID_SWARM_ID, INVALID_SWARM_ID, 0⟩).leftmost
    · rw [if_pos hlt]
      have hvac : (∃ si ∈ roster, si.swarm_id ≠ INVALID_SWARM_ID ∧ si.swarm_id ≤ res) →
          False := by
        rintro ⟨siD, hmemD, hvD, hgeD⟩
        have := iE siD hmemD hvD
        omega
      split_ifs with hdist
      · exact ⟨⟨⟨siR, hmemR, hrmR.symm⟩, by rw [hrmR]; exact hvR⟩,
          fun hlo _ => absurd hlo hvac⟩
      · exact ⟨⟨⟨siB, hmemB, hbB.symm⟩, by rw [hbB]; exact hvB⟩,
          fun hlo _ => absurd hlo hvac⟩
    · rw [if_neg hlt]
      refine ⟨⟨⟨siB, hmemB, hbB.symm⟩, by rw [hbB]; exact hvB⟩, ?_⟩
      intro _ _ si hmem hv
      have h2 := iB si hmem hv
      rw [hbB, ← hmB]
      exact h2

/-- C4 (amended): when the folded hash is not the sentinel value
`2^64 - 1` and the roster holds at least one valid swarm id (all ids being
64-bit values), `get_swarm_by_pk` returns a swarm id present in the roster
and never `INVALID_SWARM_ID`; moreover, whenever the hash lies between the
smallest and largest valid id (no wrap-around applies) the returned id
minimises the linear distance `|swarm_id - h|` over all valid ids.  (Ties
go to the earliest-listed swarm, not the numerically smaller id, and for
`h = 2^64 - 1` the sentinel itself can be returned — see the
counterexample.) -/
theorem get_swarm_by_pk_amended (roster : List SwarmInfo) (pk : String)
    (hres : hex_to_u64 pk ≠ INVALID_SWARM_ID)
    (hbound : ∀ si ∈ roster, si.swarm_id < 2 ^ 64)
    (hvalid : ∃ si ∈ roster, si.swarm_id ≠ INVALID_SWARM_ID) :
    ((∃ si ∈ roster, si.swarm_id = get_swarm_by_pk roster pk) ∧
      get_swarm_by_pk roster pk ≠ INVALID_SWARM_ID) ∧
    ((∃ si ∈ roster, si.swarm_id ≠ INVALID_SWARM_ID ∧ si.swarm_id ≤ hex_to_u64 pk) →
     (∃ si ∈ roster, si.swarm_id ≠ INVALID_SWARM_ID ∧ hex_to_u64 pk ≤ si.swarm_id) →
     ∀ si ∈ roster, si.swarm_id ≠ INVALID_SWARM_ID →
       linDist (hex_to_u64 pk) (get_swarm_by_pk roster pk) ≤
         linDist (hex_to_u64 pk) si.swarm_id) := by
  have hlt := hex_to_u64_lt pk
  have hres_le : hex_to_u64 pk ≤ 2 ^ 64 - 2 := by
    have hINV : INVALID_SWARM_ID = 2 ^ 64 - 1 := rfl
    omega
  exact get_swarm_by_pk_core_spec roster (hex_to_u64 pk) hres_le hbound hvalid


theorem get_swarm_by_pk_amended_witness :
    ((∃ si ∈ ([⟨10, []⟩, ⟨0, []⟩] : List SwarmInfo),
        si.swarm_id = get_swarm_by_pk [⟨10, []⟩, ⟨0, []⟩]
          ("05" ++ "0000000000000005" ++ String.mk (List.replicate 48 '0'))) ∧
      get_swarm_by_pk [⟨10, []⟩, ⟨0, []⟩]
        ("05" ++ "0000000000000005" ++ String.mk (List.replicate 48 '0')) ≠
        INVALID_SWARM_ID) ∧
    ((∃ si ∈ ([⟨10, []⟩, ⟨0, []⟩] : List SwarmInfo), si.swarm_id ≠ INVALID_SWARM_ID ∧
        si.swarm_id ≤ hex_to_u64
          ("05" ++ "0000000000000005" ++ String.mk (List.replicate 48 '0'))) →
     (∃ si ∈ ([⟨10, []⟩, ⟨0, []⟩] : List SwarmInfo), si.swarm_id ≠ INVALID_SWARM_ID ∧
        hex_to_u64 ("05" ++ "0000000000000005" ++ String.mk (List.replicate 48 '0')) ≤
          si.swarm_id) →
     ∀ si ∈ ([⟨10, []⟩, ⟨0, []⟩] : List SwarmInfo), si.swarm_id ≠ INVALID_SWARM_ID →
       linDist (hex_to_u64 ("05" ++ "0000000000000005" ++ String.mk (List.replicate 48 '0')))
           (get_swarm_by_pk [⟨10, []⟩, ⟨0, []⟩]
             ("05" ++ "0000000000000005" ++ String.mk (List.replicate 48 '0'))) ≤
         linDist (hex_to_u64 ("05" ++ "0000000000000005" ++ String.mk (List.replicate 48 '0')))
           si.swarm_id) :=
  get_swarm_by_pk_amended [⟨10, []⟩, ⟨0, []⟩]
    ("05" ++ "0000000000000005" ++ String.mk (List.replicate 48 '0'))
    (by decide) (by decide) ⟨⟨10, []⟩, by decide, by decide⟩

end Oxen
